import Mathlib

/-!
Shallow embedding of the Magna-Power control and DAQ program
(src/Control.py) and verification of its specification.

The file models

* the top-level script (src/Control.py lines 1-39) as `firstVariantRun`;
* the GUI worker `run_measurement_task` (src/Control.py lines 385-518),
  together with its helpers `send_command` and `query_device`.

The serial port, the instrument's reply lines, the stop event and the wall
clock are supplied by an `Env` record of functions; the interpreter threads
an explicit state `St` holding the ordered event trace, the three
accumulation lists `elapsed_times`, `voltages`, `currents`, and the rows
written by the Excel export step.  Python exceptions are modelled by an
`Option ExcKind` result: `SerialException` raised by a failing constructor
or write, and the worker's `InterruptedException`.

The excel-export variant (lines 41-201) and the plotting variant
(lines 203-353) share the configure / sampling-loop / shutdown structure of
`run_measurement_task` verbatim, with the constants fixed and the
interruptible waits replaced by plain sleeps; `run_measurement_task` is the
variant the spec declares canonical.
-/

namespace Magna

/-- Value of a run of decimal digits, most significant first; `none` as soon
as a non-digit character appears.  (Helper for `parseFloat`.) -/
def digitsValAux (acc : Nat) : List Char → Option Nat
  | [] => some acc
  | c :: cs => if c.isDigit then digitsValAux (10 * acc + (c.toNat - 48)) cs else none

/-- Unsigned decimal literal `digits[.digits]` read as a rational. -/
def parseUnsigned (l : List Char) : Option ℚ :=
  let ip := l.takeWhile (fun c => c ≠ '.')
  match l.dropWhile (fun c => c ≠ '.') with
  | [] =>
    if ip.isEmpty then none
    else (digitsValAux 0 ip).map (fun n => (n : ℚ))
  | _ :: frac =>
    if ip.isEmpty && frac.isEmpty then none
    else
      match digitsValAux 0 ip, digitsValAux 0 frac with
      | some a, some b => some ((a : ℚ) + (b : ℚ) / (10 : ℚ) ^ frac.length)
      | _, _ => none

/-- Surrounding whitespace removed, as `float()` does before reading the
literal. -/
def trimChars (l : List Char) : List Char :=
  ((l.dropWhile Char.isWhitespace).reverse.dropWhile Char.isWhitespace).reverse

/-- Models Python `float()` applied to an instrument reply: the reply is
trimmed and read as an optionally signed plain decimal literal, `none`
(Python: `ValueError`) otherwise.  Exotic forms accepted by `float()`
(exponents, `inf`, `nan`, underscores) are not modelled; no claim depends
on which particular strings parse, only on whether a given reply does. -/
def parseFloat (s : String) : Option ℚ :=
  match trimChars s.toList with
  | [] => none
  | '+' :: rest => parseUnsigned rest
  | '-' :: rest => (parseUnsigned rest).map (fun q => -q)
  | l => parseUnsigned l

/-- The log messages the program emits (print calls in the script variants,
`log_queue.put` in the GUI worker), abstracted to constructors carrying the
data interpolated into the message text. -/
inductive LogMsg where
  | attempting (port : String)
  | waitingStart (secs : Nat)
  | stopInitialWait
  | identity (reply : String)
  | powerSet (current voltage : ℚ)
  | sep
  | starting (n : Nat)
  | stabilizing
  | stopStabilization
  | stopLoop
  | measurementHeader (i n : Nat) (elapsedSecs : ℚ)
  | sampleLogged (v i : ℚ)
  | parseError (vresp iresp : String)
  | waitingInterval (secs : Nat)
  | stopInterval
  | loggingComplete
  | creatingFile (name : String)
  | savedPoints (n : Nat)
  | noData
  | fatalSerial
  | interruptedMsg
  | shutdownOk
  | shutdownError
  | connClosed
  | programFinished
deriving DecidableEq

/-- Observable events of a run: serial writes (fire-and-forget commands and
query exchanges), sleeps / interruptible waits, log messages, closing the
port, and the terminal `log_queue.put(None)` sentinel. -/
inductive Event where
  | sent (cmd : String)
  | queried (q : String) (reply : String)
  | waited (secs : ℚ) (interrupted : Bool)
  | slept (secs : ℚ)
  | logged (m : LogMsg)
  | closed
  | sentinel
deriving DecidableEq

/-- The Python exceptions relevant to the model: `serial.SerialException`
(failed open or failed write) and the worker's `InterruptedException`. -/
inductive ExcKind where
  | serialExc
  | interrupted
deriving DecidableEq

/-- The `config` dictionary handed to `run_measurement_task` by the GUI
(src/Control.py lines 649-658). -/
structure Config where
  port : String
  baudrate : Nat
  start_delay : Nat
  voltage : ℚ
  current : ℚ
  interval : Nat
  measurements : Nat
  filename : String

/-- The environment of one run: whether `serial.Serial(...)` succeeds,
which serial writes raise `SerialException` (indexed by write count), the
reply line returned by `readline` for each query (indexed by query count;
a timeout yields the empty string), the value of each observation of the
stop event (indexed by observation count), and the value of each
`time.time()` call (indexed by call count). -/
structure Env where
  openOk : Bool
  writeFail : Nat → Bool
  reply : Nat → String
  stop : Nat → Bool
  clock : Nat → ℚ

/-- Interpreter state: operation counters, the event trace, the three
module-level accumulation lists, the rows written by `df.to_excel` (if the
export ran), and whether the connection object exists and is open. -/
structure St where
  writeIdx : Nat
  queryIdx : Nat
  stopIdx : Nat
  clockIdx : Nat
  events : List Event
  elapsed_times : List ℚ
  voltages : List ℚ
  currents : List ℚ
  exported : Option (List (ℚ × ℚ × ℚ))
  connOpen : Bool

/-- Initial state of a run. -/
def St.init : St :=
  { writeIdx := 0, queryIdx := 0, stopIdx := 0, clockIdx := 0, events := [],
    elapsed_times := [], voltages := [], currents := [], exported := none,
    connOpen := false }

/-- Record an event at the end of the trace. -/
def pushEvent (e : Event) (st : St) : St :=
  { st with events := st.events ++ [e] }

/-- `send_command` (src/Control.py lines 370-374): one serial write of
`command + '\n'`.  Returns the new state and `true` on success; a failing
write raises `SerialException` (returns `false`). -/
def send_command (env : Env) (cmd : String) (st : St) : St × Bool :=
  if env.writeFail st.writeIdx = true then
    ({ st with writeIdx := st.writeIdx + 1 }, false)
  else
    (pushEvent (Event.sent cmd) { st with writeIdx := st.writeIdx + 1 }, true)

/-- `query_device` (src/Control.py lines 377-382): one serial write followed
by `readline().decode().strip()`.  Returns `none` when the write raises
`SerialException`; a read timeout is just an empty reply string. -/
def query_device (env : Env) (q : String) (st : St) : St × Option String :=
  if env.writeFail st.writeIdx = true then
    ({ st with writeIdx := st.writeIdx + 1 }, none)
  else
    let r := env.reply st.queryIdx
    (pushEvent (Event.queried q r)
      { st with writeIdx := st.writeIdx + 1, queryIdx := st.queryIdx + 1 }, some r)

/-- One observation of the stop event (`stop_event.is_set()` or the flag
test inside `stop_event.wait`). -/
def observeStop (env : Env) (st : St) : St × Bool :=
  ({ st with stopIdx := st.stopIdx + 1 }, env.stop st.stopIdx)

/-- `stop_event.wait(timeout=secs)`: an interruptible wait; records the wait
and whether it was interrupted by the stop event. -/
def waitEvent (env : Env) (secs : ℚ) (st : St) : St × Bool :=
  let p := observeStop env st
  (pushEvent (Event.waited secs p.2) p.1, p.2)

/-- One `time.time()` call. -/
def readClock (env : Env) (st : St) : St × ℚ :=
  ({ st with clockIdx := st.clockIdx + 1 }, env.clock st.clockIdx)

/-- A block of consecutive `send_command` calls; a raised `SerialException`
aborts the rest of the block (Python executes statements in order and the
exception propagates). -/
def sendAll (env : Env) (cmds : List String) (st : St) : St × Bool :=
  match cmds with
  | [] => (st, true)
  | c :: cs =>
    let p := send_command env c st
    if p.2 = true then sendAll env cs p.1 else (p.1, false)

/-- Row-wise pairing of the three accumulation lists, as
`pd.DataFrame({...})` followed by `df.to_excel` lays them out: one row per
index, columns elapsed-time (h), voltage (V), current (A). -/
def zipRows (e v c : List ℚ) : List (ℚ × ℚ × ℚ) :=
  e.zip (v.zip c)

/-- How one pass of the measurement loop body ends: fall through to the
next iteration, `break`, or a raised `SerialException`. -/
inductive IterOut where
  | next
  | brk
  | exc
deriving DecidableEq

/-- One pass of the body of the `for i in range(config['measurements'])`
loop of `run_measurement_task` (src/Control.py lines 443-478), at Python
loop index `i`: check `stop_event.is_set()` (break on stop); read the
clock and form the elapsed time; log the header; query `MEAS:VOLT?` then
`MEAS:CURR?` (a failed write raises); on successful `float()` of both,
append to the three lists and log the sample, then (except after the final
index) wait the interval interruptibly (break on stop); on a `ValueError`
from either `float()`, log the raw responses and `continue` — which skips
the interval wait. -/
def sampleIter (cfg : Config) (env : Env) (t0 : ℚ) (i : Nat) (st : St) : St × IterOut :=
  let p := observeStop env st
  if p.2 = true then (pushEvent (Event.logged LogMsg.stopLoop) p.1, IterOut.brk)
  else
    let r := readClock env p.1
    let tsec : ℚ := r.2 - t0
    let thr : ℚ := tsec / 3600
    let st1 := pushEvent (Event.logged (LogMsg.measurementHeader (i + 1) cfg.measurements tsec)) r.1
    match query_device env "MEAS:VOLT?" st1 with
    | (st2, none) => (st2, IterOut.exc)
    | (st2, some vresp) =>
      match query_device env "MEAS:CURR?" st2 with
      | (st3, none) => (st3, IterOut.exc)
      | (st3, some iresp) =>
        match parseFloat vresp, parseFloat iresp with
        | some v, some c =>
          let st4 := { st3 with
            elapsed_times := st3.elapsed_times ++ [thr],
            voltages := st3.voltages ++ [v],
            currents := st3.currents ++ [c] }
          let st5 := pushEvent (Event.logged (LogMsg.sampleLogged v c)) st4
          if i < cfg.measurements - 1 then
            let st6 := pushEvent (Event.logged (LogMsg.waitingInterval cfg.interval)) st5
            let w := waitEvent env (cfg.interval : ℚ) st6
            if w.2 = true then (pushEvent (Event.logged LogMsg.stopInterval) w.1, IterOut.brk)
            else (w.1, IterOut.next)
          else (st5, IterOut.next)
        | _, _ =>
          (pushEvent (Event.logged (LogMsg.parseError vresp iresp)) st3, IterOut.next)

/-- The `for i in range(config['measurements'])` loop of
`run_measurement_task` (src/Control.py lines 442-478), run over the listed
iteration indices: iterate `sampleIter`; a `break` ends the loop normally,
a raised `SerialException` propagates. -/
def sampleLoop (cfg : Config) (env : Env) (t0 : ℚ) : List Nat → St → St × Option ExcKind
  | [], st => (st, none)
  | i :: rest, st =>
    let p := sampleIter cfg env t0 i st
    match p.2 with
    | IterOut.next => sampleLoop cfg env t0 rest p.1
    | IterOut.brk => (p.1, none)
    | IterOut.exc => (p.1, some ExcKind.serialExc)

/-- The tail of the `try:` body of `run_measurement_task` from the
20-second stabilization wait onward (src/Control.py lines 437-494):
interruptible stabilization wait, the sampling loop, and the Excel export,
which runs only when at least one sample was collected
(`if elapsed_times:`). -/
def loopAndExport (cfg : Config) (env : Env) (t0 : ℚ) (st7 : St) : St × Option ExcKind :=
  let w2 := waitEvent env 20 st7
  if w2.2 = true then
    (pushEvent (Event.logged LogMsg.stopStabilization) w2.1, some ExcKind.interrupted)
  else
    let lp := sampleLoop cfg env t0 (List.range cfg.measurements) w2.1
    match lp.2 with
    | some e => (lp.1, some e)
    | none =>
      let st9 := pushEvent (Event.logged LogMsg.loggingComplete) lp.1
      if st9.elapsed_times.isEmpty = true then
        (pushEvent (Event.logged LogMsg.noData) st9, none)
      else
        let rows := zipRows st9.elapsed_times st9.voltages st9.currents
        let st10 := pushEvent (Event.logged (LogMsg.creatingFile cfg.filename)) st9
        let st11 := { st10 with exported := some rows }
        (pushEvent (Event.logged (LogMsg.savedPoints rows.length)) st11, none)

/-- The `try:` body of `run_measurement_task` (src/Control.py lines
398-494): open the port; interruptible start-delay wait; identify; record
`test_start_time`; configure (`CONF:SETPT 0`, `CURR 0`, `VOLT <limit>`,
`OUTP:START`, `CURR <target>`); then `loopAndExport`. -/
def run_body (cfg : Config) (env : Env) : St × Option ExcKind :=
  let st := pushEvent (Event.logged (LogMsg.attempting cfg.port)) St.init
  if env.openOk = true then
    let st := pushEvent (Event.logged (LogMsg.waitingStart cfg.start_delay)) { st with connOpen := true }
    let w := waitEvent env (cfg.start_delay : ℚ) st
    if w.2 = true then
      (pushEvent (Event.logged LogMsg.stopInitialWait) w.1, some ExcKind.interrupted)
    else
      let q1 := query_device env "*IDN?" w.1
      match q1.2 with
      | none => (q1.1, some ExcKind.serialExc)
      | some idn =>
        let st2 := pushEvent (Event.logged (LogMsg.identity idn)) q1.1
        let r := readClock env st2
        let t0 := r.2
        let sa := sendAll env ["CONF:SETPT 0", "CURR 0",
            "VOLT " ++ toString cfg.voltage, "OUTP:START",
            "CURR " ++ toString cfg.current] r.1
        if sa.2 = false then (sa.1, some ExcKind.serialExc)
        else
          let st4 := pushEvent (Event.logged (LogMsg.powerSet cfg.current cfg.voltage)) sa.1
          let st5 := pushEvent (Event.logged LogMsg.sep) st4
          let st6 := pushEvent (Event.logged (LogMsg.starting cfg.measurements)) st5
          let st7 := pushEvent (Event.logged LogMsg.stabilizing) st6
          loopAndExport cfg env t0 st7
  else (st, some ExcKind.serialExc)

/-- The `except` clauses and the `finally:` block of `run_measurement_task`
(src/Control.py lines 496-518): log the fatal error or the manual stop, if
any; then, when the connection object exists and is open, attempt
`CURR 0` and `OUTP:STOP` (a raised `SerialException` is caught and logged,
not propagated) and close the port; finally log "Program finished" and put
the `None` sentinel on the log queue. -/
def finallyStep (env : Env) (p : St × Option ExcKind) : St :=
  let st0 :=
    match p.2 with
    | some ExcKind.serialExc => pushEvent (Event.logged LogMsg.fatalSerial) p.1
    | some ExcKind.interrupted => pushEvent (Event.logged LogMsg.interruptedMsg) p.1
    | none => p.1
  let st1 := pushEvent (Event.logged LogMsg.sep) st0
  let st2 :=
    if st1.connOpen = true then
      let c1 := send_command env "CURR 0" st1
      let sA :=
        if c1.2 = true then
          let c2 := send_command env "OUTP:STOP" c1.1
          if c2.2 = true then pushEvent (Event.logged LogMsg.shutdownOk) c2.1
          else pushEvent (Event.logged LogMsg.shutdownError) c2.1
        else pushEvent (Event.logged LogMsg.shutdownError) c1.1
      let sB := pushEvent Event.closed { sA with connOpen := false }
      pushEvent (Event.logged LogMsg.connClosed) sB
    else st1
  pushEvent Event.sentinel (pushEvent (Event.logged LogMsg.programFinished) st2)

/-- `run_measurement_task` (src/Control.py lines 385-518): the `try:` body
followed by the `except`/`finally` handling. -/
def run_measurement_task (cfg : Config) (env : Env) : St :=
  finallyStep env (run_body cfg env)

/-- The top-level script, src/Control.py lines 1-39: open `COM3`; sleep
20000 s; query `*IDN?`; send `CONF:SETPT 0`, `CURR 0`, `OUTP:START`,
`CURR 580` (no voltage-limit command); sleep 300 s; query `MEAS:VOLT?`;
sleep 28800 s; query `MEAS:VOLT?`; send `OUTP:STOP`; close.  The script has
no exception handling: a failed open or write propagates and the rest of
the script, including the close, does not run. -/
def firstVariantRun (env : Env) : St × Option ExcKind :=
  if env.openOk = true then
    let st := pushEvent (Event.slept 20000) { St.init with connOpen := true }
    let q1 := query_device env "*IDN?" st
    if q1.2 = none then (q1.1, some ExcKind.serialExc)
    else
      let sa := sendAll env ["CONF:SETPT 0", "CURR 0", "OUTP:START", "CURR 580"] q1.1
      if sa.2 = false then (sa.1, some ExcKind.serialExc)
      else
        let st3 := pushEvent (Event.slept 300) sa.1
        let q2 := query_device env "MEAS:VOLT?" st3
        if q2.2 = none then (q2.1, some ExcKind.serialExc)
        else
          let st5 := pushEvent (Event.slept 28800) q2.1
          let q3 := query_device env "MEAS:VOLT?" st5
          if q3.2 = none then (q3.1, some ExcKind.serialExc)
          else
            let p := send_command env "OUTP:STOP" q3.1
            if p.2 = true then
              (pushEvent Event.closed { p.1 with connOpen := false }, none)
            else (p.1, some ExcKind.serialExc)
  else (St.init, some ExcKind.serialExc)

/-- Both replies of the measurement pair starting at query index `k` parse
as numbers. -/
def okPair (env : Env) (k : Nat) : Bool :=
  (parseFloat (env.reply k)).isSome && (parseFloat (env.reply (k + 1))).isSome

/-- The samples the loop appends, read off the environment: `n` remaining
iterations, next query index `q`, next clock index `c`.  One row
(elapsed hours, voltage, current) per iteration whose two replies both
parse. -/
def specSamples (env : Env) (t0 : ℚ) : Nat → Nat → Nat → List (ℚ × ℚ × ℚ)
  | 0, _, _ => []
  | n + 1, q, c =>
    match parseFloat (env.reply q), parseFloat (env.reply (q + 1)) with
    | some v, some i =>
      ((env.clock c - t0) / 3600, v, i) :: specSamples env t0 n (q + 2) (c + 1)
    | _, _ => specSamples env t0 n (q + 2) (c + 1)

/-- The events the loop records when no write fails and the stop event is
never set: `n` remaining iterations, current Python loop index `i`, next
query index `q`, next clock index `c`. -/
def specEvents (cfg : Config) (env : Env) (t0 : ℚ) : Nat → Nat → Nat → Nat → List Event
  | 0, _, _, _ => []
  | n + 1, i, q, c =>
    Event.logged (LogMsg.measurementHeader (i + 1) cfg.measurements (env.clock c - t0))
      :: Event.queried "MEAS:VOLT?" (env.reply q)
      :: Event.queried "MEAS:CURR?" (env.reply (q + 1))
      :: (match parseFloat (env.reply q), parseFloat (env.reply (q + 1)) with
          | some v, some cc =>
            Event.logged (LogMsg.sampleLogged v cc) ::
              (if i < cfg.measurements - 1 then
                Event.logged (LogMsg.waitingInterval cfg.interval)
                  :: Event.waited (cfg.interval : ℚ) false
                  :: specEvents cfg env t0 n (i + 1) (q + 2) (c + 1)
              else specEvents cfg env t0 n (i + 1) (q + 2) (c + 1))
          | _, _ =>
            Event.logged (LogMsg.parseError (env.reply q) (env.reply (q + 1)))
              :: specEvents cfg env t0 n (i + 1) (q + 2) (c + 1))

/-- The events preceding the sampling loop on a run where the port opens,
no write fails and the stop event is never set. -/
def prefixEvents (cfg : Config) (env : Env) : List Event :=
  [Event.logged (LogMsg.attempting cfg.port),
   Event.logged (LogMsg.waitingStart cfg.start_delay),
   Event.waited (cfg.start_delay : ℚ) false,
   Event.queried "*IDN?" (env.reply 0),
   Event.logged (LogMsg.identity (env.reply 0)),
   Event.sent "CONF:SETPT 0",
   Event.sent "CURR 0",
   Event.sent ("VOLT " ++ toString cfg.voltage),
   Event.sent "OUTP:START",
   Event.sent ("CURR " ++ toString cfg.current),
   Event.logged (LogMsg.powerSet cfg.current cfg.voltage),
   Event.logged LogMsg.sep,
   Event.logged (LogMsg.starting cfg.measurements),
   Event.logged LogMsg.stabilizing,
   Event.waited 20 false]

/-- The log events the `except` clauses append for each outcome of the
`try:` body. -/
def excLog : Option ExcKind → List Event
  | some ExcKind.serialExc => [Event.logged LogMsg.fatalSerial]
  | some ExcKind.interrupted => [Event.logged LogMsg.interruptedMsg]
  | none => []

/-- Is this event the sending of command `c`? -/
def Event.isSentCmd (c : String) : Event → Bool
  | Event.sent c2 => c2 == c
  | _ => false

/-- Is this event a query exchange for query string `q`? -/
def Event.isQueriedOf (q : String) : Event → Bool
  | Event.queried q2 _ => q2 == q
  | _ => false

/-- Is this event an interruptible wait of `s` seconds? -/
def Event.isWaitOf (s : ℚ) : Event → Bool
  | Event.waited s2 _ => s2 == s
  | _ => false

/-- Is this event the sending of a voltage-limit command (`VOLT ...`)? -/
def Event.isVoltSet : Event → Bool
  | Event.sent c => c.toList.take 4 == ['V', 'O', 'L', 'T']
  | _ => false

/-- Is this event the sending of any command? -/
def Event.isSend : Event → Bool
  | Event.sent _ => true
  | _ => false

/-- Is this event any query exchange? -/
def Event.isQuery : Event → Bool
  | Event.queried _ _ => true
  | _ => false

/-- The rows a healthy run of `run_measurement_task` collects. -/
def niceSamples (cfg : Config) (env : Env) : List (ℚ × ℚ × ℚ) :=
  specSamples env (env.clock 0) cfg.measurements 1 1

/-- A small concrete configuration: 2 measurements, 5 s interval, 7 s start
delay. -/
def cfgW : Config :=
  { port := "COM4", baudrate := 19200, start_delay := 7, voltage := 9,
    current := 5, interval := 5, measurements := 2, filename := "magnatest1.xlsx" }

/-- A healthy instrument: every reply is the decimal string "5.0". -/
def envNice : Env :=
  { openOk := true, writeFail := fun _ => false, reply := fun _ => "5.0",
    stop := fun _ => false, clock := fun n => (n : ℚ) }

/-- Stop requested from the very beginning. -/
def envStop : Env :=
  { openOk := true, writeFail := fun _ => false, reply := fun _ => "5.0",
    stop := fun _ => true, clock := fun n => (n : ℚ) }

/-- The serial port cannot be opened. -/
def envBadPort : Env :=
  { openOk := false, writeFail := fun _ => false, reply := fun _ => "",
    stop := fun _ => false, clock := fun _ => 0 }

/-- Healthy port, but the first measurement reply is unparseable. -/
def envMixed : Env :=
  { openOk := true, writeFail := fun _ => false,
    reply := fun k => if k = 1 then "ERR" else "5.0",
    stop := fun _ => false, clock := fun n => (n : ℚ) }

/-- The port dies after the configuration writes: every write from the
sixth on raises. -/
def envFail5 : Env :=
  { openOk := true, writeFail := fun n => decide (5 ≤ n), reply := fun _ => "5.0",
    stop := fun _ => false, clock := fun _ => 0 }

section Projections

variable (env : Env) (e : Event) (cmd q : String) (secs : ℚ) (st : St)

@[simp] lemma pushEvent_events : (pushEvent e st).events = st.events ++ [e] := rfl
@[simp] lemma pushEvent_connOpen : (pushEvent e st).connOpen = st.connOpen := rfl
@[simp] lemma pushEvent_elapsed : (pushEvent e st).elapsed_times = st.elapsed_times := rfl
@[simp] lemma pushEvent_voltages : (pushEvent e st).voltages = st.voltages := rfl
@[simp] lemma pushEvent_currents : (pushEvent e st).currents = st.currents := rfl
@[simp] lemma pushEvent_exported : (pushEvent e st).exported = st.exported := rfl
@[simp] lemma pushEvent_writeIdx : (pushEvent e st).writeIdx = st.writeIdx := rfl
@[simp] lemma pushEvent_queryIdx : (pushEvent e st).queryIdx = st.queryIdx := rfl
@[simp] lemma pushEvent_stopIdx : (pushEvent e st).stopIdx = st.stopIdx := rfl
@[simp] lemma pushEvent_clockIdx : (pushEvent e st).clockIdx = st.clockIdx := rfl

@[simp] lemma send_command_connOpen : ((send_command env cmd st).1).connOpen = st.connOpen := by
  unfold send_command; split <;> rfl

@[simp] lemma send_command_elapsed :
    ((send_command env cmd st).1).elapsed_times = st.elapsed_times := by
  unfold send_command; split <;> rfl

@[simp] lemma send_command_voltages : ((send_command env cmd st).1).voltages = st.voltages := by
  unfold send_command; split <;> rfl

@[simp] lemma send_command_currents : ((send_command env cmd st).1).currents = st.currents := by
  unfold send_command; split <;> rfl

@[simp] lemma send_command_exported : ((send_command env cmd st).1).exported = st.exported := by
  unfold send_command; split <;> rfl

@[simp] lemma query_device_connOpen : ((query_device env q st).1).connOpen = st.connOpen := by
  unfold query_device; split <;> rfl

@[simp] lemma query_device_elapsed :
    ((query_device env q st).1).elapsed_times = st.elapsed_times := by
  unfold query_device; split <;> rfl

@[simp] lemma query_device_voltages : ((query_device env q st).1).voltages = st.voltages := by
  unfold query_device; split <;> rfl

@[simp] lemma query_device_currents : ((query_device env q st).1).currents = st.currents := by
  unfold query_device; split <;> rfl

@[simp] lemma query_device_exported : ((query_device env q st).1).exported = st.exported := by
  unfold query_device; split <;> rfl

@[simp] lemma observeStop_fst : (observeStop env st).1 = { st with stopIdx := st.stopIdx + 1 } := rfl
@[simp] lemma observeStop_snd : (observeStop env st).2 = env.stop st.stopIdx := rfl

@[simp] lemma waitEvent_connOpen : ((waitEvent env secs st).1).connOpen = st.connOpen := rfl
@[simp] lemma waitEvent_elapsed :
    ((waitEvent env secs st).1).elapsed_times = st.elapsed_times := rfl
@[simp] lemma waitEvent_voltages : ((waitEvent env secs st).1).voltages = st.voltages := rfl
@[simp] lemma waitEvent_currents : ((waitEvent env secs st).1).currents = st.currents := rfl
@[simp] lemma waitEvent_exported : ((waitEvent env secs st).1).exported = st.exported := rfl
@[simp] lemma waitEvent_events :
    ((waitEvent env secs st).1).events = st.events ++ [Event.waited secs (env.stop st.stopIdx)] := rfl
@[simp] lemma waitEvent_snd : (waitEvent env secs st).2 = env.stop st.stopIdx := rfl

@[simp] lemma readClock_fst : (readClock env st).1 = { st with clockIdx := st.clockIdx + 1 } := rfl
@[simp] lemma readClock_snd : (readClock env st).2 = env.clock st.clockIdx := rfl

lemma sendAll_connOpen (cmds : List String) :
    ∀ st : St, ((sendAll env cmds st).1).connOpen = st.connOpen := by
  induction cmds with
  | nil => intro st; rfl
  | cons c cs ih =>
    intro st
    unfold sendAll
    dsimp only
    split
    · rw [ih]; simp
    · simp

lemma sendAll_elapsed (cmds : List String) :
    ∀ st : St, ((sendAll env cmds st).1).elapsed_times = st.elapsed_times := by
  induction cmds with
  | nil => intro st; rfl
  | cons c cs ih =>
    intro st
    unfold sendAll
    dsimp only
    split
    · rw [ih]; simp
    · simp

lemma sendAll_voltages (cmds : List String) :
    ∀ st : St, ((sendAll env cmds st).1).voltages = st.voltages := by
  induction cmds with
  | nil => intro st; rfl
  | cons c cs ih =>
    intro st
    unfold sendAll
    dsimp only
    split
    · rw [ih]; simp
    · simp

lemma sendAll_currents (cmds : List String) :
    ∀ st : St, ((sendAll env cmds st).1).currents = st.currents := by
  induction cmds with
  | nil => intro st; rfl
  | cons c cs ih =>
    intro st
    unfold sendAll
    dsimp only
    split
    · rw [ih]; simp
    · simp

lemma sendAll_exported (cmds : List String) :
    ∀ st : St, ((sendAll env cmds st).1).exported = st.exported := by
  induction cmds with
  | nil => intro st; rfl
  | cons c cs ih =>
    intro st
    unfold sendAll
    dsimp only
    split
    · rw [ih]; simp
    · simp

@[simp] lemma send_command_snd :
    (send_command env cmd st).2 = !env.writeFail st.writeIdx := by
  unfold send_command; split <;> simp_all

@[simp] lemma query_device_snd :
    (query_device env q st).2 =
      if env.writeFail st.writeIdx = true then none else some (env.reply st.queryIdx) := by
  unfold query_device; split <;> simp_all

end Projections

/-- Every field of the state that one pass of the loop body preserves, and
the fact that the three lists grow by a common amount (`d` is 0 or 1). -/
lemma sampleIter_inv (cfg : Config) (env : Env) (t0 : ℚ) (i : Nat) (st : St) :
    ((sampleIter cfg env t0 i st).1.connOpen = st.connOpen) ∧
    ((sampleIter cfg env t0 i st).1.exported = st.exported) ∧
    (∃ tail, (sampleIter cfg env t0 i st).1.events = st.events ++ tail) ∧
    (∃ d, (sampleIter cfg env t0 i st).1.elapsed_times.length = st.elapsed_times.length + d ∧
          (sampleIter cfg env t0 i st).1.voltages.length = st.voltages.length + d ∧
          (sampleIter cfg env t0 i st).1.currents.length = st.currents.length + d) := by
  unfold sampleIter
  by_cases hs : env.stop st.stopIdx = true
  · simp [hs]
  · simp only [Bool.not_eq_true] at hs
    simp only [observeStop_snd, observeStop_fst, hs, Bool.false_eq_true, if_false]
    by_cases hw1 : env.writeFail st.writeIdx = true
    · simp [query_device, hw1]
    · simp only [Bool.not_eq_true] at hw1
      simp only [query_device, readClock_fst, readClock_snd, pushEvent, hw1,
        Bool.false_eq_true, if_false]
      by_cases hw2 : env.writeFail (st.writeIdx + 1) = true
      · simp [hw2]
      · simp only [Bool.not_eq_true] at hw2
        simp only [hw2, Bool.false_eq_true, if_false]
        rcases hp1 : parseFloat (env.reply st.queryIdx) with _ | v
        · simp [hp1]
        · rcases hp2 : parseFloat (env.reply (st.queryIdx + 1)) with _ | c
          · simp [hp1, hp2]
          · simp only [hp1, hp2]
            by_cases hi : i < cfg.measurements - 1
            · simp only [hi, if_true]
              by_cases hs2 : env.stop (st.stopIdx + 1) = true
              · simp [hs2, waitEvent]
              · simp only [Bool.not_eq_true] at hs2
                simp [hs2, waitEvent]
            · simp only [hi, if_false]
              simp

/-- The loop-level version of `sampleIter_inv`. -/
lemma sampleLoop_inv (cfg : Config) (env : Env) (t0 : ℚ) :
    ∀ (l : List Nat) (st : St),
    ((sampleLoop cfg env t0 l st).1.connOpen = st.connOpen) ∧
    ((sampleLoop cfg env t0 l st).1.exported = st.exported) ∧
    (∃ tail, (sampleLoop cfg env t0 l st).1.events = st.events ++ tail) ∧
    (∃ d, (sampleLoop cfg env t0 l st).1.elapsed_times.length = st.elapsed_times.length + d ∧
          (sampleLoop cfg env t0 l st).1.voltages.length = st.voltages.length + d ∧
          (sampleLoop cfg env t0 l st).1.currents.length = st.currents.length + d) := by
  intro l
  induction l with
  | nil => intro st; simp [sampleLoop]
  | cons i rest ih =>
    intro st
    obtain ⟨hc, he, ⟨tl, htl⟩, d, h1, h2, h3⟩ := sampleIter_inv cfg env t0 i st
    rcases hp : sampleIter cfg env t0 i st with ⟨st', out⟩
    rw [hp] at hc he htl h1 h2 h3
    simp only [sampleLoop]
    rw [hp]
    cases out with
    | next =>
      obtain ⟨hc2, he2, ⟨tl2, htl2⟩, d2, g1, g2, g3⟩ := ih st'
      refine ⟨by rw [hc2, hc], by rw [he2, he],
        ⟨tl ++ tl2, by rw [htl2, htl, List.append_assoc]⟩, d + d2, ?_, ?_, ?_⟩
      · rw [g1, h1]; omega
      · rw [g2, h2]; omega
      · rw [g3, h3]; omega
    | brk =>
      exact ⟨hc, he, ⟨tl, htl⟩, d, h1, h2, h3⟩
    | exc =>
      exact ⟨hc, he, ⟨tl, htl⟩, d, h1, h2, h3⟩

lemma sampleLoop_connOpen (cfg : Config) (env : Env) (t0 : ℚ) (l : List Nat) (st : St) :
    ((sampleLoop cfg env t0 l st).1).connOpen = st.connOpen :=
  (sampleLoop_inv cfg env t0 l st).1

lemma sampleLoop_exported (cfg : Config) (env : Env) (t0 : ℚ) (l : List Nat) (st : St) :
    ((sampleLoop cfg env t0 l st).1).exported = st.exported :=
  (sampleLoop_inv cfg env t0 l st).2.1

lemma sampleLoop_len12 (cfg : Config) (env : Env) (t0 : ℚ) (l : List Nat) (st : St) :
    ((sampleLoop cfg env t0 l st).1).elapsed_times.length + st.voltages.length =
      ((sampleLoop cfg env t0 l st).1).voltages.length + st.elapsed_times.length := by
  obtain ⟨-, -, -, d, h1, h2, -⟩ := sampleLoop_inv cfg env t0 l st
  omega

lemma sampleLoop_len23 (cfg : Config) (env : Env) (t0 : ℚ) (l : List Nat) (st : St) :
    ((sampleLoop cfg env t0 l st).1).voltages.length + st.currents.length =
      ((sampleLoop cfg env t0 l st).1).currents.length + st.voltages.length := by
  obtain ⟨-, -, -, d, -, h2, h3⟩ := sampleLoop_inv cfg env t0 l st
  omega

lemma loopAndExport_inv (cfg : Config) (env : Env) (t0 : ℚ) (st : St) :
    ((loopAndExport cfg env t0 st).1.connOpen = st.connOpen) ∧
    (∃ d, (loopAndExport cfg env t0 st).1.elapsed_times.length = st.elapsed_times.length + d ∧
          (loopAndExport cfg env t0 st).1.voltages.length = st.voltages.length + d ∧
          (loopAndExport cfg env t0 st).1.currents.length = st.currents.length + d) ∧
    ((loopAndExport cfg env t0 st).1.exported = st.exported ∨
      (loopAndExport cfg env t0 st).1.elapsed_times ≠ []) := by
  unfold loopAndExport
  by_cases hs : env.stop st.stopIdx = true
  · simp [hs]
  · simp only [Bool.not_eq_true] at hs
    simp only [waitEvent_snd, hs, Bool.false_eq_true, if_false]
    obtain ⟨lc, lex, -, d, l1, l2, l3⟩ :=
      sampleLoop_inv cfg env t0 (List.range cfg.measurements) (waitEvent env (20 : ℚ) st).1
    split
    · -- SerialException from inside the loop
      constructor
      · simpa using lc
      · constructor
        · exact ⟨d, by simpa using l1, by simpa using l2, by simpa using l3⟩
        · left; simpa using lex
    · -- loop fell through or broke
      by_cases hemp : (pushEvent (Event.logged LogMsg.loggingComplete)
          (sampleLoop cfg env t0 (List.range cfg.measurements)
            (waitEvent env (20 : ℚ) st).1).1).elapsed_times.isEmpty = true
      · simp only [hemp, if_true]
        constructor
        · simpa using lc
        · constructor
          · exact ⟨d, by simpa using l1, by simpa using l2, by simpa using l3⟩
          · left; simpa using lex
      · simp only [hemp, if_false]
        constructor
        · simpa using lc
        · constructor
          · exact ⟨d, by simpa using l1, by simpa using l2, by simpa using l3⟩
          · right
            simp only [pushEvent_elapsed] at hemp ⊢
            simpa using hemp

lemma run_body_inv (cfg : Config) (env : Env) :
    ((run_body cfg env).1.connOpen = env.openOk) ∧
    ((run_body cfg env).1.elapsed_times.length = (run_body cfg env).1.voltages.length ∧
     (run_body cfg env).1.voltages.length = (run_body cfg env).1.currents.length) ∧
    ((run_body cfg env).1.exported = none ∨ (run_body cfg env).1.elapsed_times ≠ []) := by
  by_cases ho : env.openOk = true
  case neg =>
    simp only [Bool.not_eq_true] at ho
    unfold run_body
    simp [ho, St.init]
  case pos =>
    have H : ∀ (t : ℚ) (s : St), s.connOpen = true → s.elapsed_times = [] →
        s.voltages = [] → s.currents = [] → s.exported = none →
        ((loopAndExport cfg env t s).1.connOpen = true ∧
         ((loopAndExport cfg env t s).1.elapsed_times.length =
            (loopAndExport cfg env t s).1.voltages.length ∧
          (loopAndExport cfg env t s).1.voltages.length =
            (loopAndExport cfg env t s).1.currents.length) ∧
         ((loopAndExport cfg env t s).1.exported = none ∨
          (loopAndExport cfg env t s).1.elapsed_times ≠ [])) := by
      intro t s h1 h2 h3 h4 h5
      obtain ⟨lc, ⟨d, l1, l2, l3⟩, lex⟩ := loopAndExport_inv cfg env t s
      refine ⟨?_, ⟨?_, ?_⟩, ?_⟩
      · rw [lc, h1]
      · rw [l1, l2, h2, h3]
      · rw [l2, l3, h3, h4]
      · rcases lex with h | h
        · left; rw [h, h5]
        · right; exact h
    unfold run_body
    simp only [ho, if_true]
    by_cases hs0 : env.stop 0 = true
    · simp [hs0, St.init, pushEvent, waitEvent, observeStop]
    · simp only [Bool.not_eq_true] at hs0
      simp only [St.init, pushEvent, waitEvent, observeStop, waitEvent_snd, hs0]
      simp only [Bool.false_eq_true, if_false]
      by_cases hw0 : env.writeFail 0 = true
      · simp [query_device, hw0]
      · simp only [Bool.not_eq_true] at hw0
        simp only [query_device_snd, query_device, hw0, Bool.false_eq_true, if_false]
        split
        · simp [sendAll_connOpen, sendAll_elapsed, sendAll_voltages,
            sendAll_currents, sendAll_exported, ho]
        · refine H _ _ ?_ ?_ ?_ ?_ ?_ <;>
            simp [sendAll_connOpen, sendAll_elapsed, sendAll_voltages,
              sendAll_currents, sendAll_exported]

lemma zipRows_maps (s : List (ℚ × ℚ × ℚ)) :
    zipRows (s.map (fun x => x.1)) (s.map (fun x => x.2.1)) (s.map (fun x => x.2.2)) = s := by
  induction s with
  | nil => rfl
  | cons x xs ih => simp [zipRows] at ih ⊢; exact ih

lemma finallyStep_elapsed (env : Env) (p : St × Option ExcKind) :
    (finallyStep env p).elapsed_times = p.1.elapsed_times := by
  unfold finallyStep
  repeat' split
  all_goals (dsimp only; split_ifs <;> simp)

lemma finallyStep_voltages (env : Env) (p : St × Option ExcKind) :
    (finallyStep env p).voltages = p.1.voltages := by
  unfold finallyStep
  repeat' split
  all_goals (dsimp only; split_ifs <;> simp)

lemma finallyStep_currents (env : Env) (p : St × Option ExcKind) :
    (finallyStep env p).currents = p.1.currents := by
  unfold finallyStep
  repeat' split
  all_goals (dsimp only; split_ifs <;> simp)

lemma finallyStep_exported (env : Env) (p : St × Option ExcKind) :
    (finallyStep env p).exported = p.1.exported := by
  unfold finallyStep
  repeat' split
  all_goals (dsimp only; split_ifs <;> simp)

/-- When the connection is open and the two safety writes succeed, the
`finally:` block appends the full shutdown tail. -/
lemma finallyStep_events_open (env : Env) (p : St × Option ExcKind)
    (h : p.1.connOpen = true)
    (hw1 : env.writeFail p.1.writeIdx = false)
    (hw2 : env.writeFail (p.1.writeIdx + 1) = false) :
    (finallyStep env p).events = p.1.events ++ excLog p.2 ++
      [Event.logged LogMsg.sep, Event.sent "CURR 0", Event.sent "OUTP:STOP",
       Event.logged LogMsg.shutdownOk, Event.closed, Event.logged LogMsg.connClosed,
       Event.logged LogMsg.programFinished, Event.sentinel] := by
  unfold finallyStep
  rcases p with ⟨st, exc⟩
  simp only at h hw1 hw2
  rcases exc with _ | e
  · simp [excLog, h, hw1, hw2, send_command, pushEvent]
  · cases e <;> simp [excLog, h, hw1, hw2, send_command, pushEvent]

/-- When the connection never opened, the `finally:` block only logs and
emits the sentinel. -/
lemma finallyStep_events_closed (env : Env) (p : St × Option ExcKind)
    (h : p.1.connOpen = false) :
    (finallyStep env p).events = p.1.events ++ excLog p.2 ++
      [Event.logged LogMsg.sep, Event.logged LogMsg.programFinished, Event.sentinel] := by
  unfold finallyStep
  rcases p with ⟨st, exc⟩
  simp only at h
  rcases exc with _ | e
  · simp [excLog, h, pushEvent]
  · cases e <;> simp [excLog, h, pushEvent]

/-- Complete characterization of the sampling loop on a healthy run: no
write fails and the stop event is never observed set.  The loop finishes
normally, appends exactly the rows of `specSamples`, and records exactly
the events of `specEvents`. -/
lemma sampleLoop_nice (cfg : Config) (env : Env) (t0 : ℚ)
    (hW : ∀ n, env.writeFail n = false) (hS : ∀ n, env.stop n = false) :
    ∀ (n a : Nat) (st : St), a + n = cfg.measurements →
      (sampleLoop cfg env t0 (List.range' a n) st).2 = none ∧
      (sampleLoop cfg env t0 (List.range' a n) st).1.events =
        st.events ++ specEvents cfg env t0 n a st.queryIdx st.clockIdx ∧
      (sampleLoop cfg env t0 (List.range' a n) st).1.elapsed_times =
        st.elapsed_times ++ (specSamples env t0 n st.queryIdx st.clockIdx).map (fun x => x.1) ∧
      (sampleLoop cfg env t0 (List.range' a n) st).1.voltages =
        st.voltages ++ (specSamples env t0 n st.queryIdx st.clockIdx).map (fun x => x.2.1) ∧
      (sampleLoop cfg env t0 (List.range' a n) st).1.currents =
        st.currents ++ (specSamples env t0 n st.queryIdx st.clockIdx).map (fun x => x.2.2) ∧
      (sampleLoop cfg env t0 (List.range' a n) st).1.exported = st.exported ∧
      (sampleLoop cfg env t0 (List.range' a n) st).1.connOpen = st.connOpen := by
  intro n
  induction n with
  | zero =>
    intro a st ha
    simp [sampleLoop, specEvents, specSamples]
  | succ n ih =>
    intro a st ha
    have hside : (a + 1) + n = cfg.measurements := by omega
    have ih0 : ∀ s : St, (sampleLoop cfg env t0 (List.range' (a+1) n) s).2 = none :=
      fun s => (ih (a+1) s hside).1
    have ihE : ∀ s : St, (sampleLoop cfg env t0 (List.range' (a+1) n) s).1.events =
        s.events ++ specEvents cfg env t0 n (a+1) s.queryIdx s.clockIdx :=
      fun s => (ih (a+1) s hside).2.1
    have ihT : ∀ s : St, (sampleLoop cfg env t0 (List.range' (a+1) n) s).1.elapsed_times =
        s.elapsed_times ++ (specSamples env t0 n s.queryIdx s.clockIdx).map (fun x => x.1) :=
      fun s => (ih (a+1) s hside).2.2.1
    have ihV : ∀ s : St, (sampleLoop cfg env t0 (List.range' (a+1) n) s).1.voltages =
        s.voltages ++ (specSamples env t0 n s.queryIdx s.clockIdx).map (fun x => x.2.1) :=
      fun s => (ih (a+1) s hside).2.2.2.1
    have ihC : ∀ s : St, (sampleLoop cfg env t0 (List.range' (a+1) n) s).1.currents =
        s.currents ++ (specSamples env t0 n s.queryIdx s.clockIdx).map (fun x => x.2.2) :=
      fun s => (ih (a+1) s hside).2.2.2.2.1
    have ihX : ∀ s : St, (sampleLoop cfg env t0 (List.range' (a+1) n) s).1.exported =
        s.exported := fun s => (ih (a+1) s hside).2.2.2.2.2.1
    have ihO : ∀ s : St, (sampleLoop cfg env t0 (List.range' (a+1) n) s).1.connOpen =
        s.connOpen := fun s => (ih (a+1) s hside).2.2.2.2.2.2
    rw [List.range'_succ]
    simp only [sampleLoop, sampleIter, observeStop_snd, observeStop_fst, hS,
      Bool.false_eq_true, if_false, readClock_fst, readClock_snd, query_device, hW,
      pushEvent]
    rcases hp1 : parseFloat (env.reply st.queryIdx) with _ | v
    · simp only [hp1, specEvents, specSamples, ih0, ihE, ihT, ihV, ihC, ihX, ihO]
      simp
    · rcases hp2 : parseFloat (env.reply (st.queryIdx + 1)) with _ | c
      · simp only [hp1, hp2, specEvents, specSamples, ih0, ihE, ihT, ihV, ihC, ihX, ihO]
        simp
      · simp only [hp1, hp2, specEvents, specSamples]
        by_cases hlt : a < cfg.measurements - 1
        · simp only [hlt, if_true, waitEvent, observeStop_snd, observeStop_fst, hS,
            Bool.false_eq_true, if_false, pushEvent]
          simp only [ih0, ihE, ihT, ihV, ihC, ihX, ihO]
          simp
        · simp only [hlt, if_false]
          simp only [ih0, ihE, ihT, ihV, ihC, ihX, ihO]
          simp

/-- Complete characterization of the `try:` body on a healthy run: port
opens, no write fails, stop never observed set. -/
lemma run_body_nice (cfg : Config) (env : Env) (ho : env.openOk = true)
    (hW : ∀ n, env.writeFail n = false) (hS : ∀ n, env.stop n = false) :
    (run_body cfg env).2 = none ∧
    (run_body cfg env).1.connOpen = true ∧
    (run_body cfg env).1.elapsed_times = (niceSamples cfg env).map (fun x => x.1) ∧
    (run_body cfg env).1.voltages = (niceSamples cfg env).map (fun x => x.2.1) ∧
    (run_body cfg env).1.currents = (niceSamples cfg env).map (fun x => x.2.2) ∧
    (run_body cfg env).1.exported =
      (if (niceSamples cfg env).isEmpty = true then none else some (niceSamples cfg env)) ∧
    (run_body cfg env).1.events =
      prefixEvents cfg env ++ specEvents cfg env (env.clock 0) cfg.measurements 0 1 1 ++
      (Event.logged LogMsg.loggingComplete ::
        (if (niceSamples cfg env).isEmpty = true then [Event.logged LogMsg.noData]
         else [Event.logged (LogMsg.creatingFile cfg.filename),
               Event.logged (LogMsg.savedPoints (niceSamples cfg env).length)])) := by
  have NE := sampleLoop_nice cfg env (env.clock 0) hW hS
  have h0 : ∀ s : St, (sampleLoop cfg env (env.clock 0) (List.range' 0 cfg.measurements) s).2 = none :=
    fun s => (NE cfg.measurements 0 s (by omega)).1
  have hE : ∀ s : St, (sampleLoop cfg env (env.clock 0) (List.range' 0 cfg.measurements) s).1.events =
      s.events ++ specEvents cfg env (env.clock 0) cfg.measurements 0 s.queryIdx s.clockIdx :=
    fun s => (NE cfg.measurements 0 s (by omega)).2.1
  have hT : ∀ s : St, (sampleLoop cfg env (env.clock 0) (List.range' 0 cfg.measurements) s).1.elapsed_times =
      s.elapsed_times ++ (specSamples env (env.clock 0) cfg.measurements s.queryIdx s.clockIdx).map (fun x => x.1) :=
    fun s => (NE cfg.measurements 0 s (by omega)).2.2.1
  have hV : ∀ s : St, (sampleLoop cfg env (env.clock 0) (List.range' 0 cfg.measurements) s).1.voltages =
      s.voltages ++ (specSamples env (env.clock 0) cfg.measurements s.queryIdx s.clockIdx).map (fun x => x.2.1) :=
    fun s => (NE cfg.measurements 0 s (by omega)).2.2.2.1
  have hC : ∀ s : St, (sampleLoop cfg env (env.clock 0) (List.range' 0 cfg.measurements) s).1.currents =
      s.currents ++ (specSamples env (env.clock 0) cfg.measurements s.queryIdx s.clockIdx).map (fun x => x.2.2) :=
    fun s => (NE cfg.measurements 0 s (by omega)).2.2.2.2.1
  have hX : ∀ s : St, (sampleLoop cfg env (env.clock 0) (List.range' 0 cfg.measurements) s).1.exported =
      s.exported := fun s => (NE cfg.measurements 0 s (by omega)).2.2.2.2.2.1
  have hO : ∀ s : St, (sampleLoop cfg env (env.clock 0) (List.range' 0 cfg.measurements) s).1.connOpen =
      s.connOpen := fun s => (NE cfg.measurements 0 s (by omega)).2.2.2.2.2.2
  unfold run_body loopAndExport
  simp only [ho, if_true]
  simp only [St.init, pushEvent, waitEvent, observeStop, query_device, sendAll,
    send_command, readClock, hW, hS, Bool.false_eq_true, if_false, Bool.not_false,
    List.range_eq_range']
  simp only [h0, hE, hT, hV, hC, hX, hO]
  by_cases hemp : (niceSamples cfg env).isEmpty = true
  · simp_all [niceSamples, prefixEvents, List.isEmpty_iff]
  · simp_all [niceSamples, prefixEvents, List.isEmpty_iff, zipRows_maps]

/-- Each loop iteration queries `MEAS:VOLT?` exactly once, whether or not
the replies parse. -/
lemma specEvents_count_volt (cfg : Config) (env : Env) (t0 : ℚ) :
    ∀ n i q c, (specEvents cfg env t0 n i q c).countP (Event.isQueriedOf "MEAS:VOLT?") = n := by
  intro n
  induction n with
  | zero => intro i q c; simp [specEvents]
  | succ n ih =>
    intro i q c
    simp only [specEvents]
    rcases hp1 : parseFloat (env.reply q) with _ | v
    · simp [Event.isQueriedOf, List.countP_cons, ih]
    · rcases hp2 : parseFloat (env.reply (q + 1)) with _ | cc
      · simp [Event.isQueriedOf, List.countP_cons, ih]
      · by_cases hlt : i < cfg.measurements - 1
        · simp [hlt, Event.isQueriedOf, List.countP_cons, ih]
        · simp [hlt, Event.isQueriedOf, List.countP_cons, ih]


/-- Length of a filtered `range (n+1)` split into head and shifted tail. -/
lemma filter_range_succ_len (f : Nat → Bool) (n : Nat) :
    ((List.range (n + 1)).filter f).length =
      (if f 0 then 1 else 0) + ((List.range n).filter (fun j => f (j + 1))).length := by
  rw [List.range_succ_eq_map, List.filter_cons]
  have hmap : (List.filter f (List.map Nat.succ (List.range n))).length =
      ((List.range n).filter (fun j => f (j + 1))).length := by
    rw [List.filter_map]
    rw [List.length_map]
    apply congrArg List.length
    apply List.filter_congr
    intro x hx
    simp [Function.comp, Nat.succ_eq_add_one]
  split <;> simp [hmap, Nat.add_comm]

/-- The loop waits the configured interval exactly after those iterations
whose replies both parsed and that are not the final iteration. -/
lemma specEvents_count_wait (cfg : Config) (env : Env) (t0 : ℚ) :
    ∀ n i q c, (specEvents cfg env t0 n i q c).countP (Event.isWaitOf (cfg.interval : ℚ)) =
      ((List.range n).filter
        (fun j => okPair env (q + 2 * j) && decide (i + j < cfg.measurements - 1))).length := by
  intro n
  induction n with
  | zero => intro i q c; simp [specEvents]
  | succ n ih =>
    intro i q c
    have hshift : ((List.range n).filter
        (fun j => okPair env (q + 2 * (j + 1)) && decide (i + (j + 1) < cfg.measurements - 1))) =
        ((List.range n).filter
        (fun j => okPair env ((q + 2) + 2 * j) && decide ((i + 1) + j < cfg.measurements - 1))) := by
      apply List.filter_congr
      intro j hj
      rw [show q + 2 * (j + 1) = (q + 2) + 2 * j by ring,
          show i + (j + 1) = (i + 1) + j by ring]
    rw [filter_range_succ_len, hshift]
    simp only [specEvents]
    rcases hp1 : parseFloat (env.reply q) with _ | v
    · simp [Event.isWaitOf, List.countP_cons, ih, okPair, hp1]
    · rcases hp2 : parseFloat (env.reply (q + 1)) with _ | cc
      · simp [Event.isWaitOf, List.countP_cons, ih, okPair, hp1, hp2]
      · by_cases hlt : i < cfg.measurements - 1
        · simp [hlt, Event.isWaitOf, List.countP_cons, ih, okPair, hp1, hp2, Nat.add_comm]
        · simp [hlt, Event.isWaitOf, List.countP_cons, ih, okPair, hp1, hp2, Nat.add_comm]

/-- An iteration whose replies do not both parse logs the two raw
responses. -/
lemma specEvents_parse_error_mem (cfg : Config) (env : Env) (t0 : ℚ) :
    ∀ n i q c j, j < n → okPair env (q + 2 * j) = false →
      Event.logged (LogMsg.parseError (env.reply (q + 2 * j)) (env.reply (q + 2 * j + 1))) ∈
        specEvents cfg env t0 n i q c := by
  intro n
  induction n with
  | zero => intro i q c j hj _; omega
  | succ n ih =>
    intro i q c j hj hok
    rcases j with _ | j
    · simp only [Nat.mul_zero, Nat.add_zero] at hok ⊢
      simp only [specEvents]
      rcases hp1 : parseFloat (env.reply q) with _ | v
      · simp
      · rcases hp2 : parseFloat (env.reply (q + 1)) with _ | cc
        · simp
        · exfalso
          simp [okPair, hp1, hp2] at hok
    · have hj2 : j < n := by omega
      have hok2 : okPair env ((q + 2) + 2 * j) = false := by
        rw [show (q + 2) + 2 * j = q + 2 * (j + 1) by ring]
        exact hok
      have hmem := ih (i + 1) (q + 2) (c + 1) j hj2 hok2
      rw [show (q + 2) + 2 * j = q + 2 * (j + 1) by ring] at hmem
      simp only [specEvents]
      rcases hp1 : parseFloat (env.reply q) with _ | v
      · simp only [List.mem_cons]
        right; right; right
        simpa using Or.inr hmem
      · rcases hp2 : parseFloat (env.reply (q + 1)) with _ | cc
        · simp only [List.mem_cons]
          right; right; right
          simpa using Or.inr hmem
        · by_cases hlt : i < cfg.measurements - 1
          · simp only [hlt, if_true, List.mem_cons]
            right; right; right; right; right; right
            simpa using hmem
          · simp only [hlt, if_false, List.mem_cons]
            right; right; right; right
            simpa using hmem


/-- One sample per iteration whose replies both parse. -/
lemma specSamples_length (env : Env) (t0 : ℚ) :
    ∀ n q c, (specSamples env t0 n q c).length =
      ((List.range n).filter (fun j => okPair env (q + 2 * j))).length := by
  intro n
  induction n with
  | zero => intro q c; simp [specSamples]
  | succ n ih =>
    intro q c
    have hshift : ((List.range n).filter (fun j => okPair env (q + 2 * (j + 1)))) =
        ((List.range n).filter (fun j => okPair env ((q + 2) + 2 * j))) := by
      apply List.filter_congr
      intro j hj
      rw [show q + 2 * (j + 1) = (q + 2) + 2 * j by ring]
    rw [filter_range_succ_len, hshift]
    simp only [specSamples]
    rcases hp1 : parseFloat (env.reply q) with _ | v
    · simp [ih, okPair, hp1]
    · rcases hp2 : parseFloat (env.reply (q + 1)) with _ | cc
      · simp [ih, okPair, hp1, hp2]
      · simp [ih, okPair, hp1, hp2, Nat.add_comm]

/-- When every measurement reply from query index `q` on parses, the loop
keeps one sample per iteration and the elapsed-hours column is the clock
readings in order. -/
lemma specSamples_allparse (env : Env) (t0 : ℚ) :
    ∀ n q c, (∀ k, q ≤ k → (parseFloat (env.reply k)).isSome = true) →
      (specSamples env t0 n q c).map (fun x => x.1) =
        (List.range' c n).map (fun k => (env.clock k - t0) / 3600) ∧
      (specSamples env t0 n q c).length = n := by
  intro n
  induction n with
  | zero => intro q c _; simp [specSamples]
  | succ n ih =>
    intro q c hP
    rcases Option.isSome_iff_exists.mp (hP q (by omega)) with ⟨v, hv⟩
    rcases Option.isSome_iff_exists.mp (hP (q + 1) (by omega)) with ⟨w, hw⟩
    have hrest := ih (q + 2) (c + 1) (fun k hk => hP k (by omega))
    simp [specSamples, hv, hw, List.range'_succ, hrest.1, hrest.2]

lemma run_task_elapsed (cfg : Config) (env : Env) :
    (run_measurement_task cfg env).elapsed_times = (run_body cfg env).1.elapsed_times :=
  finallyStep_elapsed env _

lemma run_task_voltages (cfg : Config) (env : Env) :
    (run_measurement_task cfg env).voltages = (run_body cfg env).1.voltages :=
  finallyStep_voltages env _

lemma run_task_currents (cfg : Config) (env : Env) :
    (run_measurement_task cfg env).currents = (run_body cfg env).1.currents :=
  finallyStep_currents env _

lemma run_task_exported (cfg : Config) (env : Env) :
    (run_measurement_task cfg env).exported = (run_body cfg env).1.exported :=
  finallyStep_exported env _

/-- Claim C6: if opening the serial port fails, the run issues no commands and no
queries, logs the fatal connection error, attempts no shutdown commands and
no close, and still ends with "Program finished" and the `None` sentinel. -/
theorem claim_C6_open_failure (cfg : Config) (env : Env)
    (hOpen : env.openOk = false) :
    (run_measurement_task cfg env).events =
      [Event.logged (LogMsg.attempting cfg.port), Event.logged LogMsg.fatalSerial,
       Event.logged LogMsg.sep, Event.logged LogMsg.programFinished, Event.sentinel] ∧
    (run_measurement_task cfg env).events.countP Event.isSend = 0 ∧
    (run_measurement_task cfg env).events.countP Event.isQuery = 0 ∧
    Event.closed ∉ (run_measurement_task cfg env).events := by
  have hb : run_body cfg env =
      (pushEvent (Event.logged (LogMsg.attempting cfg.port)) St.init, some ExcKind.serialExc) := by
    unfold run_body
    simp [hOpen]
  have hev : (run_measurement_task cfg env).events =
      [Event.logged (LogMsg.attempting cfg.port), Event.logged LogMsg.fatalSerial,
       Event.logged LogMsg.sep, Event.logged LogMsg.programFinished, Event.sentinel] := by
    unfold run_measurement_task
    rw [hb, finallyStep_events_closed env _ (by simp [pushEvent, St.init])]
    simp [excLog, pushEvent, St.init]
  refine ⟨hev, ?_, ?_, ?_⟩ <;> simp [hev, Event.isSend, Event.isQuery]

/-- Claim C10: a file is exported only when at least one sample was appended; a
run that ends with zero parsed samples writes no output file. -/
theorem claim_C10_no_file_without_samples (cfg : Config) (env : Env)
    (h : (run_measurement_task cfg env).elapsed_times = []) :
    (run_measurement_task cfg env).exported = none := by
  rw [run_task_elapsed] at h
  rw [run_task_exported]
  obtain ⟨-, -, hdisj⟩ := run_body_inv cfg env
  rcases hdisj with hnone | hne
  · exact hnone
  · exact absurd h hne

/-- Claim C9: the three accumulation lists always have equal length — at the end
of every run, and after any portion of the sampling loop run from any state
whose lists already have equal length, since an iteration appends to all
three lists or to none. -/
theorem claim_C9_lists_aligned :
    (∀ (cfg : Config) (env : Env),
      (run_measurement_task cfg env).elapsed_times.length =
        (run_measurement_task cfg env).voltages.length ∧
      (run_measurement_task cfg env).voltages.length =
        (run_measurement_task cfg env).currents.length) ∧
    (∀ (cfg : Config) (env : Env) (t0 : ℚ) (l : List Nat) (st : St),
      st.elapsed_times.length = st.voltages.length →
      st.voltages.length = st.currents.length →
      (sampleLoop cfg env t0 l st).1.elapsed_times.length =
        (sampleLoop cfg env t0 l st).1.voltages.length ∧
      (sampleLoop cfg env t0 l st).1.voltages.length =
        (sampleLoop cfg env t0 l st).1.currents.length) := by
  constructor
  · intro cfg env
    obtain ⟨-, ⟨h1, h2⟩, -⟩ := run_body_inv cfg env
    rw [run_task_elapsed, run_task_voltages, run_task_currents]
    exact ⟨h1, h2⟩
  · intro cfg env t0 l st h1 h2
    obtain ⟨-, -, -, d, g1, g2, g3⟩ := sampleLoop_inv cfg env t0 l st
    omega


/-- The exact events the `except`/`finally` handling appends, for every
combination of outcome, connection state and shutdown write failures. -/
lemma finallyStep_events (env : Env) (p : St × Option ExcKind) :
    (finallyStep env p).events = p.1.events ++ excLog p.2 ++ [Event.logged LogMsg.sep] ++
      (if p.1.connOpen = true then
        (if env.writeFail p.1.writeIdx = true then [Event.logged LogMsg.shutdownError]
         else if env.writeFail (p.1.writeIdx + 1) = true then
           [Event.sent "CURR 0", Event.logged LogMsg.shutdownError]
         else [Event.sent "CURR 0", Event.sent "OUTP:STOP", Event.logged LogMsg.shutdownOk])
        ++ [Event.closed, Event.logged LogMsg.connClosed]
      else []) ++ [Event.logged LogMsg.programFinished, Event.sentinel] := by
  unfold finallyStep
  rcases p with ⟨st, exc⟩
  by_cases hc : st.connOpen = true <;>
  by_cases hw1 : env.writeFail st.writeIdx = true <;>
  by_cases hw2 : env.writeFail (st.writeIdx + 1) = true <;>
  rcases exc with _ | e <;>
  first
    | (cases e <;> simp [excLog, pushEvent, send_command, hc, hw1, hw2])
    | simp [excLog, pushEvent, send_command, hc, hw1, hw2]

/-- Every run, whatever happens, ends by logging "Program finished" and
putting the `None` sentinel. -/
lemma finallyStep_ends (env : Env) (p : St × Option ExcKind) :
    ∃ l, (finallyStep env p).events = l ++
      [Event.logged LogMsg.programFinished, Event.sentinel] := by
  refine ⟨p.1.events ++ excLog p.2 ++ [Event.logged LogMsg.sep] ++
      (if p.1.connOpen = true then
        (if env.writeFail p.1.writeIdx = true then [Event.logged LogMsg.shutdownError]
         else if env.writeFail (p.1.writeIdx + 1) = true then
           [Event.sent "CURR 0", Event.logged LogMsg.shutdownError]
         else [Event.sent "CURR 0", Event.sent "OUTP:STOP", Event.logged LogMsg.shutdownOk])
        ++ [Event.closed, Event.logged LogMsg.connClosed]
      else []), ?_⟩
  rw [finallyStep_events]

lemma gui_no_shutdown_when_closed (cfg : Config) (env : Env)
    (ho : env.openOk = false) :
    (run_measurement_task cfg env).events.countP Event.isSend = 0 ∧
    Event.closed ∉ (run_measurement_task cfg env).events := by
  have hb : run_body cfg env =
      (pushEvent (Event.logged (LogMsg.attempting cfg.port)) St.init, some ExcKind.serialExc) := by
    unfold run_body
    simp [ho]
  unfold run_measurement_task
  rw [hb, finallyStep_events_closed env _ (by simp [pushEvent, St.init])]
  simp [excLog, pushEvent, St.init, Event.isSend]

/-- Claim C5: every run of the worker, whatever the stop signal and the
instrument do, ends with "Program finished" and the sentinel; on a run
with a healthy instrument, whatever the stop signal does, the run still
appends the full shutdown tail — `CURR 0`, `OUTP:STOP`, close, "Program
finished", sentinel — and cancellation during the start-delay wait is
observed by that wait (recorded as interrupted), aborts the run before
any query is issued, and still shuts down. -/
theorem claim_C5_cancellation (cfg : Config) (env : Env) :
    (∃ l, (run_measurement_task cfg env).events = l ++
       [Event.logged LogMsg.programFinished, Event.sentinel]) ∧
    (env.openOk = true → (∀ n, env.writeFail n = false) →
      (∃ l, (run_measurement_task cfg env).events = l ++
         [Event.logged LogMsg.sep, Event.sent "CURR 0", Event.sent "OUTP:STOP",
          Event.logged LogMsg.shutdownOk, Event.closed, Event.logged LogMsg.connClosed,
          Event.logged LogMsg.programFinished, Event.sentinel]) ∧
      (env.stop 0 = true →
        (run_measurement_task cfg env).events.countP Event.isQuery = 0 ∧
        Event.waited (cfg.start_delay : ℚ) true ∈ (run_measurement_task cfg env).events)) := by
  constructor
  · exact finallyStep_ends env (run_body cfg env)
  · intro ho hW
    have hc : (run_body cfg env).1.connOpen = true := by
      rw [(run_body_inv cfg env).1, ho]
    have hev : (run_measurement_task cfg env).events =
        (run_body cfg env).1.events ++ excLog (run_body cfg env).2 ++
        [Event.logged LogMsg.sep, Event.sent "CURR 0", Event.sent "OUTP:STOP",
         Event.logged LogMsg.shutdownOk, Event.closed, Event.logged LogMsg.connClosed,
         Event.logged LogMsg.programFinished, Event.sentinel] := by
      unfold run_measurement_task
      exact finallyStep_events_open env _ hc (hW _) (hW _)
    constructor
    · exact ⟨_, hev⟩
    · intro hstop
      have hb : run_body cfg env =
          (pushEvent (Event.logged LogMsg.stopInitialWait)
            (waitEvent env (cfg.start_delay : ℚ)
              (pushEvent (Event.logged (LogMsg.waitingStart cfg.start_delay))
                { (pushEvent (Event.logged (LogMsg.attempting cfg.port)) St.init) with
                    connOpen := true })).1, some ExcKind.interrupted) := by
        unfold run_body
        simp [ho, hstop, St.init, pushEvent, waitEvent, observeStop]
      rw [hev, hb]
      constructor
      · simp [excLog, pushEvent, waitEvent, observeStop, St.init, Event.isQuery, hstop]
      · simp [excLog, pushEvent, waitEvent, observeStop, St.init, hstop]

/-- Claim C3: a healthy, uncancelled run whose measurement replies all parse
appends exactly `measurements` samples, and their elapsed times (read from
a strictly increasing clock) are strictly increasing. -/
theorem claim_C3_sample_count (cfg : Config) (env : Env)
    (ho : env.openOk = true) (hW : ∀ n, env.writeFail n = false)
    (hS : ∀ n, env.stop n = false)
    (hP : ∀ k, 1 ≤ k → (parseFloat (env.reply k)).isSome = true)
    (hM : StrictMono env.clock) :
    (run_measurement_task cfg env).elapsed_times.length = cfg.measurements ∧
    (run_measurement_task cfg env).voltages.length = cfg.measurements ∧
    (run_measurement_task cfg env).currents.length = cfg.measurements ∧
    (run_measurement_task cfg env).elapsed_times.Pairwise (· < ·) := by
  obtain ⟨-, -, hT, hV, hC, -, -⟩ := run_body_nice cfg env ho hW hS
  obtain ⟨hmap, hlen⟩ := specSamples_allparse env (env.clock 0) cfg.measurements 1 1 hP
  rw [run_task_elapsed, run_task_voltages, run_task_currents, hT, hV, hC]
  refine ⟨by simp [niceSamples, hlen], by simp [niceSamples, hlen],
    by simp [niceSamples, hlen], ?_⟩
  rw [show (niceSamples cfg env).map (fun x => x.1) =
      (List.range' 1 cfg.measurements).map (fun k => (env.clock k - env.clock 0) / 3600)
    from hmap]
  apply List.Pairwise.map (fun k => (env.clock k - env.clock 0) / 3600)
    (fun a b hab => ?_) (List.pairwise_lt_range' 1 cfg.measurements)
  have h1 : env.clock a - env.clock 0 < env.clock b - env.clock 0 :=
    sub_lt_sub_right (hM hab) _
  have h2 : (0 : ℚ) < 3600 := by norm_num
  exact div_lt_div_of_pos_right h1 h2

/-- Claim C8: the export step writes one row per appended sample, in order, with
the three columns being the three accumulation lists; it writes nothing
when no sample was appended. -/
theorem claim_C8_export_rows (cfg : Config) (env : Env)
    (ho : env.openOk = true) (hW : ∀ n, env.writeFail n = false)
    (hS : ∀ n, env.stop n = false) :
    (run_measurement_task cfg env).exported =
      (if (run_measurement_task cfg env).elapsed_times.isEmpty = true then none
       else some (zipRows (run_measurement_task cfg env).elapsed_times
          (run_measurement_task cfg env).voltages (run_measurement_task cfg env).currents)) ∧
    (∀ rows, (run_measurement_task cfg env).exported = some rows →
      rows.length = (run_measurement_task cfg env).elapsed_times.length) := by
  obtain ⟨-, -, hT, hV, hC, hX, -⟩ := run_body_nice cfg env ho hW hS
  rw [run_task_elapsed, run_task_voltages, run_task_currents, run_task_exported,
    hT, hV, hC, hX]
  by_cases hemp : (niceSamples cfg env).isEmpty = true
  · constructor
    · have hnil : niceSamples cfg env = [] := by
        simpa [List.isEmpty_iff] using hemp
      simp [hemp, hnil]
    · intro rows hrows
      rw [if_pos hemp] at hrows
      exact absurd hrows (by simp)
  · have hemp2 : ((niceSamples cfg env).map (fun x => x.1)).isEmpty = true ↔
        (niceSamples cfg env).isEmpty = true := by
      simp [List.isEmpty_iff]
    constructor
    · rw [if_neg hemp, if_neg (by rw [hemp2]; exact hemp), zipRows_maps]
    · intro rows hrows
      rw [if_neg hemp] at hrows
      have : rows = niceSamples cfg env := by
        injection hrows.symm
      simp [this]


/-- The full event trace of a healthy run (no write failure, stop never
set): prefix, loop events, completion/export logs, shutdown tail. -/
lemma run_task_events_nice (cfg : Config) (env : Env)
    (ho : env.openOk = true) (hW : ∀ n, env.writeFail n = false)
    (hS : ∀ n, env.stop n = false) :
    (run_measurement_task cfg env).events =
      prefixEvents cfg env ++ specEvents cfg env (env.clock 0) cfg.measurements 0 1 1 ++
      (Event.logged LogMsg.loggingComplete ::
        (if (niceSamples cfg env).isEmpty = true then [Event.logged LogMsg.noData]
         else [Event.logged (LogMsg.creatingFile cfg.filename),
               Event.logged (LogMsg.savedPoints (niceSamples cfg env).length)])) ++
      [Event.logged LogMsg.sep, Event.sent "CURR 0", Event.sent "OUTP:STOP",
       Event.logged LogMsg.shutdownOk, Event.closed, Event.logged LogMsg.connClosed,
       Event.logged LogMsg.programFinished, Event.sentinel] := by
  obtain ⟨h1, h2, -, -, -, -, hE⟩ := run_body_nice cfg env ho hW hS
  unfold run_measurement_task
  rw [finallyStep_events_open env _ h2 (hW _) (hW _), hE, h1]
  simp [excLog]

lemma gui_configure_order (cfg : Config) (env : Env)
    (ho : env.openOk = true) (hW : ∀ n, env.writeFail n = false)
    (hS : ∀ n, env.stop n = false) :
    ∃ l1 l2, (run_measurement_task cfg env).events =
      l1 ++ [Event.sent "CONF:SETPT 0", Event.sent "CURR 0",
             Event.sent ("VOLT " ++ toString cfg.voltage), Event.sent "OUTP:START",
             Event.sent ("CURR " ++ toString cfg.current)] ++ l2 := by
  rw [run_task_events_nice cfg env ho hW hS]
  refine ⟨[Event.logged (LogMsg.attempting cfg.port),
    Event.logged (LogMsg.waitingStart cfg.start_delay),
    Event.waited (cfg.start_delay : ℚ) false,
    Event.queried "*IDN?" (env.reply 0),
    Event.logged (LogMsg.identity (env.reply 0))],
    [Event.logged (LogMsg.powerSet cfg.current cfg.voltage), Event.logged LogMsg.sep,
     Event.logged (LogMsg.starting cfg.measurements), Event.logged LogMsg.stabilizing,
     Event.waited 20 false] ++
      specEvents cfg env (env.clock 0) cfg.measurements 0 1 1 ++
      (Event.logged LogMsg.loggingComplete ::
        (if (niceSamples cfg env).isEmpty = true then [Event.logged LogMsg.noData]
         else [Event.logged (LogMsg.creatingFile cfg.filename),
               Event.logged (LogMsg.savedPoints (niceSamples cfg env).length)])) ++
      [Event.logged LogMsg.sep, Event.sent "CURR 0", Event.sent "OUTP:STOP",
       Event.logged LogMsg.shutdownOk, Event.closed, Event.logged LogMsg.connClosed,
       Event.logged LogMsg.programFinished, Event.sentinel], ?_⟩
  simp [prefixEvents]

/-- Claim C4: on a healthy uncancelled run, a parse failure of either measurement
reply raises nothing out of the loop (the body ends without exception),
appends no sample for that iteration (samples = iterations whose pair of
replies parsed), logs the two raw responses, and does not stop the loop
(every iteration still queries `MEAS:VOLT?`). -/
theorem claim_C4_parse_failure_skips (cfg : Config) (env : Env)
    (ho : env.openOk = true) (hW : ∀ n, env.writeFail n = false)
    (hS : ∀ n, env.stop n = false) :
    (run_body cfg env).2 = none ∧
    (run_measurement_task cfg env).elapsed_times.length =
      ((List.range cfg.measurements).filter (fun j => okPair env (1 + 2 * j))).length ∧
    (run_measurement_task cfg env).events.countP (Event.isQueriedOf "MEAS:VOLT?") =
      cfg.measurements ∧
    (∀ j, j < cfg.measurements → okPair env (1 + 2 * j) = false →
      Event.logged (LogMsg.parseError (env.reply (1 + 2 * j)) (env.reply (1 + 2 * j + 1))) ∈
        (run_measurement_task cfg env).events) := by
  obtain ⟨h1, -, hT, -, -, -, -⟩ := run_body_nice cfg env ho hW hS
  refine ⟨h1, ?_, ?_, ?_⟩
  · rw [run_task_elapsed, hT]
    simp [niceSamples, specSamples_length]
  · rw [run_task_events_nice cfg env ho hW hS]
    simp only [List.countP_append, List.countP_cons, specEvents_count_volt]
    have hpre : (prefixEvents cfg env).countP (Event.isQueriedOf "MEAS:VOLT?") = 0 := by
      simp [prefixEvents, Event.isQueriedOf]
    rw [hpre]
    split <;> simp [Event.isQueriedOf]
  · intro j hj hok
    rw [run_task_events_nice cfg env ho hW hS]
    have := specEvents_parse_error_mem cfg env (env.clock 0) cfg.measurements 0 1 1 j hj hok
    simp only [List.mem_append, List.mem_cons]
    left; left; right
    exact this

/-- Claim C7 (amended): on a healthy uncancelled run, the interval wait happens
exactly after those iterations that are not the last one AND whose replies
both parsed; an iteration whose replies failed to parse skips the wait
(`continue` jumps straight to the next iteration). -/
theorem claim_C7_amended_interval_waits (cfg : Config) (env : Env)
    (ho : env.openOk = true) (hW : ∀ n, env.writeFail n = false)
    (hS : ∀ n, env.stop n = false)
    (h20 : cfg.interval ≠ 20)
    (hsd : cfg.interval ≠ cfg.start_delay) :
    (run_measurement_task cfg env).events.countP (Event.isWaitOf (cfg.interval : ℚ)) =
      ((List.range cfg.measurements).filter
        (fun j => okPair env (1 + 2 * j) && decide (j < cfg.measurements - 1))).length := by
  rw [run_task_events_nice cfg env ho hW hS]
  simp only [List.countP_append, List.countP_cons, specEvents_count_wait]
  have e1 : (((cfg.start_delay : Nat) : ℚ) == ((cfg.interval : Nat) : ℚ)) = false := by
    rw [beq_eq_false_iff_ne]
    intro h
    exact hsd (by exact_mod_cast h.symm)
  have e2 : ((20 : ℚ) == ((cfg.interval : Nat) : ℚ)) = false := by
    rw [beq_eq_false_iff_ne]
    intro h
    apply h20
    exact_mod_cast h.symm
  have hpre : (prefixEvents cfg env).countP (Event.isWaitOf (cfg.interval : ℚ)) = 0 := by
    simp [prefixEvents, Event.isWaitOf, e1, e2]
  rw [hpre]
  have hfix : ((List.range cfg.measurements).filter
        (fun j => okPair env (1 + 2 * j) && decide (0 + j < cfg.measurements - 1))) =
      ((List.range cfg.measurements).filter
        (fun j => okPair env (1 + 2 * j) && decide (j < cfg.measurements - 1))) := by
    apply List.filter_congr
    intro j hj
    rw [Nat.zero_add]
  rw [hfix]
  split <;> simp [Event.isWaitOf]


/-- Claim C1 (code bug evidence): the GUI worker does configure in the
claimed order — `CONF:SETPT 0`, `CURR 0`, `VOLT <limit>`, `OUTP:START`,
`CURR <target>` appear consecutively in its trace — but a run of the
top-level script (src/Control.py lines 1-39) with a healthy port never
sends any voltage-limit (`VOLT ...`) command, yet does send `OUTP:START`:
output is enabled without the compliance limit ever being set,
contradicting the claimed Configuring order for that run. -/
theorem claim_C1_configure_order :
    (∀ (cfg : Config) (env : Env), env.openOk = true → (∀ n, env.writeFail n = false) →
      (∀ n, env.stop n = false) →
      ∃ l1 l2, (run_measurement_task cfg env).events =
        l1 ++ [Event.sent "CONF:SETPT 0", Event.sent "CURR 0",
               Event.sent ("VOLT " ++ toString cfg.voltage), Event.sent "OUTP:START",
               Event.sent ("CURR " ++ toString cfg.current)] ++ l2) ∧
    (∀ env : Env, env.openOk = true → (∀ n, env.writeFail n = false) →
      (∀ e ∈ (firstVariantRun env).1.events, Event.isVoltSet e = false) ∧
      Event.sent "OUTP:START" ∈ (firstVariantRun env).1.events) := by
  constructor
  · exact gui_configure_order
  · intro env ho hW
    have hev : (firstVariantRun env).1.events =
        [Event.slept 20000, Event.queried "*IDN?" (env.reply 0),
         Event.sent "CONF:SETPT 0", Event.sent "CURR 0", Event.sent "OUTP:START",
         Event.sent "CURR 580", Event.slept 300,
         Event.queried "MEAS:VOLT?" (env.reply 1), Event.slept 28800,
         Event.queried "MEAS:VOLT?" (env.reply 2), Event.sent "OUTP:STOP",
         Event.closed] := by
      unfold firstVariantRun
      simp [ho, hW, query_device, send_command, sendAll, pushEvent, St.init]
    refine ⟨?_, by simp [hev]⟩
    intro e he
    rw [hev] at he
    fin_cases he <;> rfl

/-- Claim C2 (code bug evidence): the GUI worker does shut down as claimed
— when the connection opened, `CURR 0` then `OUTP:STOP` then close end
every healthy trace, and when the open failed no command is sent and no
close happens — but in the top-level script the only `CURR 0` is sent
during configuration (before `OUTP:START`); the shutdown portion of a
successful run sends `OUTP:STOP` without first forcing the current to
zero, and on a write failure after configuration the script propagates the
exception, so neither the shutdown commands nor the close are attempted. -/
theorem claim_C2_shutdown_behaviour :
    (∀ (cfg : Config) (env : Env), env.openOk = true → (∀ n, env.writeFail n = false) →
      ∃ l, (run_measurement_task cfg env).events = l ++
        [Event.logged LogMsg.sep, Event.sent "CURR 0", Event.sent "OUTP:STOP",
         Event.logged LogMsg.shutdownOk, Event.closed, Event.logged LogMsg.connClosed,
         Event.logged LogMsg.programFinished, Event.sentinel]) ∧
    (∀ (cfg : Config) (env : Env), env.openOk = false →
      (run_measurement_task cfg env).events.countP Event.isSend = 0 ∧
      Event.closed ∉ (run_measurement_task cfg env).events) ∧
    (∀ env : Env, env.openOk = true → (∀ n, env.writeFail n = false) →
      (firstVariantRun env).1.events =
        [Event.slept 20000, Event.queried "*IDN?" (env.reply 0),
         Event.sent "CONF:SETPT 0", Event.sent "CURR 0", Event.sent "OUTP:START",
         Event.sent "CURR 580", Event.slept 300,
         Event.queried "MEAS:VOLT?" (env.reply 1), Event.slept 28800,
         Event.queried "MEAS:VOLT?" (env.reply 2), Event.sent "OUTP:STOP",
         Event.closed] ∧
      (firstVariantRun env).2 = none ∧
      ((firstVariantRun env).1.events.drop 4).countP (Event.isSentCmd "CURR 0") = 0 ∧
      Event.sent "OUTP:STOP" ∈ (firstVariantRun env).1.events.drop 4) ∧
    (∀ env : Env, env.openOk = true → env.writeFail 5 = true →
      (∀ n, n < 5 → env.writeFail n = false) →
      Event.closed ∉ (firstVariantRun env).1.events ∧
      (firstVariantRun env).2 = some ExcKind.serialExc) := by
  refine ⟨?_, gui_no_shutdown_when_closed, ?_, ?_⟩
  · intro cfg env ho hW
    have hc : (run_body cfg env).1.connOpen = true := by
      rw [(run_body_inv cfg env).1, ho]
    exact ⟨_, by unfold run_measurement_task; exact finallyStep_events_open env _ hc (hW _) (hW _)⟩
  · intro env ho hW
    have hev : (firstVariantRun env).1.events =
        [Event.slept 20000, Event.queried "*IDN?" (env.reply 0),
         Event.sent "CONF:SETPT 0", Event.sent "CURR 0", Event.sent "OUTP:START",
         Event.sent "CURR 580", Event.slept 300,
         Event.queried "MEAS:VOLT?" (env.reply 1), Event.slept 28800,
         Event.queried "MEAS:VOLT?" (env.reply 2), Event.sent "OUTP:STOP",
         Event.closed] := by
      unfold firstVariantRun
      simp [ho, hW, query_device, send_command, sendAll, pushEvent, St.init]
    have h2 : (firstVariantRun env).2 = none := by
      unfold firstVariantRun
      simp [ho, hW, query_device, send_command, sendAll, pushEvent, St.init]
    refine ⟨hev, h2, ?_, by simp [hev]⟩
    rw [hev]
    have hA : Event.isSentCmd "CURR 0" (Event.sent "OUTP:START") = false := by decide
    have hB : Event.isSentCmd "CURR 0" (Event.sent "CURR 580") = false := by decide
    have hC2 : Event.isSentCmd "CURR 0" (Event.sent "OUTP:STOP") = false := by decide
    simp [Event.isSentCmd, hA, hB, hC2]
  · intro env ho h5 hlt
    have h0 := hlt 0 (by omega)
    have h1 := hlt 1 (by omega)
    have h2 := hlt 2 (by omega)
    have h3 := hlt 3 (by omega)
    have h4 := hlt 4 (by omega)
    have hev : (firstVariantRun env) =
        ({ writeIdx := 6, queryIdx := 1, stopIdx := 0, clockIdx := 0,
           events := [Event.slept 20000, Event.queried "*IDN?" (env.reply 0),
             Event.sent "CONF:SETPT 0", Event.sent "CURR 0", Event.sent "OUTP:START",
             Event.sent "CURR 580", Event.slept 300],
           elapsed_times := [], voltages := [], currents := [], exported := none,
           connOpen := true }, some ExcKind.serialExc) := by
      unfold firstVariantRun
      simp [ho, h0, h1, h2, h3, h4, h5, query_device, send_command, sendAll,
        pushEvent, St.init]
    rw [hev]
    simp

lemma parseFloat_five : parseFloat "5.0" = some 5 := by
  simp [parseFloat, trimChars, parseUnsigned, digitsValAux]

lemma parseFloat_err : parseFloat "ERR" = none := by
  simp [parseFloat, trimChars, parseUnsigned, digitsValAux]

/-- Claim C7 counterexample: with 2 measurements and a parse failure in
the first (non-final) iteration, both iterations run (two `MEAS:VOLT?`
queries) yet the run contains no interval wait at all, although the claim
requires one after every non-final iteration including a parse-failure
iteration. -/
theorem claim_C7_counterexample :
    cfgW.measurements = 2 ∧ cfgW.interval = 5 ∧ parseFloat (envMixed.reply 1) = none ∧
    (run_measurement_task cfgW envMixed).events.countP (Event.isQueriedOf "MEAS:VOLT?") = 2 ∧
    (run_measurement_task cfgW envMixed).events.countP (Event.isWaitOf (5 : ℚ)) = 0 := by
  refine ⟨rfl, rfl, by simp [envMixed, parseFloat_err], ?_, ?_⟩
  · rw [run_task_events_nice cfgW envMixed rfl (fun _ => rfl) (fun _ => rfl)]
    simp only [List.countP_append, List.countP_cons, specEvents_count_volt]
    have hpre : (prefixEvents cfgW envMixed).countP (Event.isQueriedOf "MEAS:VOLT?") = 0 := by
      simp [prefixEvents, Event.isQueriedOf]
    rw [hpre]
    split <;> simp [Event.isQueriedOf, cfgW]
  rw [run_task_events_nice cfgW envMixed rfl (fun _ => rfl) (fun _ => rfl)]
  have e1 : (((cfgW.start_delay : Nat) : ℚ) == (5 : ℚ)) = false := by
    rw [beq_eq_false_iff_ne]
    norm_num [cfgW]
  have e2 : ((20 : ℚ) == (5 : ℚ)) = false := by
    rw [beq_eq_false_iff_ne]
    norm_num
  have hpre : (prefixEvents cfgW envMixed).countP (Event.isWaitOf (5 : ℚ)) = 0 := by
    simp [prefixEvents, Event.isWaitOf, e1, e2]
  have hcast : ((cfgW.interval : Nat) : ℚ) = (5 : ℚ) := by norm_num [cfgW]
  have hloop : (specEvents cfgW envMixed ((envMixed.clock 0)) cfgW.measurements 0 1 1).countP
      (Event.isWaitOf (5 : ℚ)) = 0 := by
    rw [← hcast, specEvents_count_wait]
    simp [okPair, envMixed, parseFloat_err, parseFloat_five, cfgW, List.range_succ]
  simp only [List.countP_append, hpre, hloop, List.countP_cons]
  split <;> simp [Event.isWaitOf, e2]


theorem claim_C1_witness :
    (∃ l1 l2, (run_measurement_task cfgW envNice).events =
      l1 ++ [Event.sent "CONF:SETPT 0", Event.sent "CURR 0",
             Event.sent ("VOLT " ++ toString cfgW.voltage), Event.sent "OUTP:START",
             Event.sent ("CURR " ++ toString cfgW.current)] ++ l2) ∧
    ((∀ e ∈ (firstVariantRun envNice).1.events, Event.isVoltSet e = false) ∧
     Event.sent "OUTP:START" ∈ (firstVariantRun envNice).1.events) :=
  ⟨claim_C1_configure_order.1 cfgW envNice rfl (fun _ => rfl) (fun _ => rfl),
   claim_C1_configure_order.2 envNice rfl (fun _ => rfl)⟩

theorem claim_C2_witness :
    (∃ l, (run_measurement_task cfgW envNice).events = l ++
       [Event.logged LogMsg.sep, Event.sent "CURR 0", Event.sent "OUTP:STOP",
        Event.logged LogMsg.shutdownOk, Event.closed, Event.logged LogMsg.connClosed,
        Event.logged LogMsg.programFinished, Event.sentinel]) ∧
    ((run_measurement_task cfgW envBadPort).events.countP Event.isSend = 0 ∧
     Event.closed ∉ (run_measurement_task cfgW envBadPort).events) ∧
    ((firstVariantRun envNice).1.events =
      [Event.slept 20000, Event.queried "*IDN?" (envNice.reply 0),
       Event.sent "CONF:SETPT 0", Event.sent "CURR 0", Event.sent "OUTP:START",
       Event.sent "CURR 580", Event.slept 300,
       Event.queried "MEAS:VOLT?" (envNice.reply 1), Event.slept 28800,
       Event.queried "MEAS:VOLT?" (envNice.reply 2), Event.sent "OUTP:STOP",
       Event.closed] ∧
     (firstVariantRun envNice).2 = none ∧
     ((firstVariantRun envNice).1.events.drop 4).countP (Event.isSentCmd "CURR 0") = 0 ∧
     Event.sent "OUTP:STOP" ∈ (firstVariantRun envNice).1.events.drop 4) ∧
    (Event.closed ∉ (firstVariantRun envFail5).1.events ∧
     (firstVariantRun envFail5).2 = some ExcKind.serialExc) :=
  ⟨claim_C2_shutdown_behaviour.1 cfgW envNice rfl (fun _ => rfl),
   claim_C2_shutdown_behaviour.2.1 cfgW envBadPort rfl,
   claim_C2_shutdown_behaviour.2.2.1 envNice rfl (fun _ => rfl),
   claim_C2_shutdown_behaviour.2.2.2 envFail5 rfl (by decide) (by decide)⟩

theorem claim_C3_witness :
    (run_measurement_task cfgW envNice).elapsed_times.length = cfgW.measurements ∧
    (run_measurement_task cfgW envNice).voltages.length = cfgW.measurements ∧
    (run_measurement_task cfgW envNice).currents.length = cfgW.measurements ∧
    (run_measurement_task cfgW envNice).elapsed_times.Pairwise (· < ·) :=
  claim_C3_sample_count cfgW envNice rfl (fun _ => rfl) (fun _ => rfl)
    (fun k _ => by simp [envNice, parseFloat_five])
    (fun a b h => by simp only [envNice]; exact_mod_cast h)

theorem claim_C4_witness :
    (run_body cfgW envMixed).2 = none ∧
    (run_measurement_task cfgW envMixed).elapsed_times.length =
      ((List.range cfgW.measurements).filter (fun j => okPair envMixed (1 + 2 * j))).length ∧
    (run_measurement_task cfgW envMixed).events.countP (Event.isQueriedOf "MEAS:VOLT?") =
      cfgW.measurements ∧
    (∀ j, j < cfgW.measurements → okPair envMixed (1 + 2 * j) = false →
      Event.logged (LogMsg.parseError (envMixed.reply (1 + 2 * j))
        (envMixed.reply (1 + 2 * j + 1))) ∈ (run_measurement_task cfgW envMixed).events) :=
  claim_C4_parse_failure_skips cfgW envMixed rfl (fun _ => rfl) (fun _ => rfl)

theorem claim_C5_witness :
    (∃ l, (run_measurement_task cfgW envStop).events = l ++
       [Event.logged LogMsg.programFinished, Event.sentinel]) ∧
    (∃ l, (run_measurement_task cfgW envStop).events = l ++
       [Event.logged LogMsg.sep, Event.sent "CURR 0", Event.sent "OUTP:STOP",
        Event.logged LogMsg.shutdownOk, Event.closed, Event.logged LogMsg.connClosed,
        Event.logged LogMsg.programFinished, Event.sentinel]) ∧
    ((run_measurement_task cfgW envStop).events.countP Event.isQuery = 0 ∧
     Event.waited (cfgW.start_delay : ℚ) true ∈ (run_measurement_task cfgW envStop).events) :=
  ⟨(claim_C5_cancellation cfgW envStop).1,
   ((claim_C5_cancellation cfgW envStop).2 rfl (fun _ => rfl)).1,
   ((claim_C5_cancellation cfgW envStop).2 rfl (fun _ => rfl)).2 rfl⟩

theorem claim_C6_witness :
    (run_measurement_task cfgW envBadPort).events =
      [Event.logged (LogMsg.attempting cfgW.port), Event.logged LogMsg.fatalSerial,
       Event.logged LogMsg.sep, Event.logged LogMsg.programFinished, Event.sentinel] ∧
    (run_measurement_task cfgW envBadPort).events.countP Event.isSend = 0 ∧
    (run_measurement_task cfgW envBadPort).events.countP Event.isQuery = 0 ∧
    Event.closed ∉ (run_measurement_task cfgW envBadPort).events :=
  claim_C6_open_failure cfgW envBadPort rfl

theorem claim_C7_witness :
    (run_measurement_task cfgW envMixed).events.countP (Event.isWaitOf (cfgW.interval : ℚ)) =
      ((List.range cfgW.measurements).filter
        (fun j => okPair envMixed (1 + 2 * j) && decide (j < cfgW.measurements - 1))).length :=
  claim_C7_amended_interval_waits cfgW envMixed rfl (fun _ => rfl) (fun _ => rfl)
    (by decide) (by decide)

theorem claim_C8_witness :
    (run_measurement_task cfgW envNice).exported =
      (if (run_measurement_task cfgW envNice).elapsed_times.isEmpty = true then none
       else some (zipRows (run_measurement_task cfgW envNice).elapsed_times
          (run_measurement_task cfgW envNice).voltages
          (run_measurement_task cfgW envNice).currents)) ∧
    (∀ rows, (run_measurement_task cfgW envNice).exported = some rows →
      rows.length = (run_measurement_task cfgW envNice).elapsed_times.length) :=
  claim_C8_export_rows cfgW envNice rfl (fun _ => rfl) (fun _ => rfl)

theorem claim_C9_witness :
    ((run_measurement_task cfgW envNice).elapsed_times.length =
        (run_measurement_task cfgW envNice).voltages.length ∧
     (run_measurement_task cfgW envNice).voltages.length =
        (run_measurement_task cfgW envNice).currents.length) ∧
    ((sampleLoop cfgW envNice 0 [0] St.init).1.elapsed_times.length =
        (sampleLoop cfgW envNice 0 [0] St.init).1.voltages.length ∧
     (sampleLoop cfgW envNice 0 [0] St.init).1.voltages.length =
        (sampleLoop cfgW envNice 0 [0] St.init).1.currents.length) :=
  ⟨claim_C9_lists_aligned.1 cfgW envNice,
   claim_C9_lists_aligned.2 cfgW envNice 0 [0] St.init rfl rfl⟩

theorem claim_C10_witness :
    (run_measurement_task cfgW envBadPort).exported = none :=
  claim_C10_no_file_without_samples cfgW envBadPort
    (by rw [run_task_elapsed]; unfold run_body; simp [envBadPort, St.init])

end Magna
